import Mathlib

/-!
Verification of the adaptive knowledge / conversation-state engine of a
per-group chat assistant.  The JavaScript sources (`aiService.js`,
`database.js`, and `bot.js`, the latter holding two revisions of the bot
class, embedded here as `BotV1` and `BotV2`) are shallowly embedded below:
pure functions become Lean functions, the SQLite tables become lists of row
structures, the in-memory maps become association lists, and the effectful
message pipeline becomes a function returning an explicit trace of the
collaborators it consults.  Machine floats (confidence scores, similarity
ratios) are modelled as rationals; timestamps as integers (milliseconds).
-/

namespace AIManager

/-- Helper for JS `hay.includes(pat)`: does `pat` begin `hay`? -/
def listStartsWith : List Char → List Char → Bool
  | _, [] => true
  | [], _ :: _ => false
  | a :: as, b :: bs => a = b && listStartsWith as bs

/-- JS `hay.includes(pat)`: `pat` occurs as a contiguous substring of `hay`. -/
def listContainsSub : List Char → List Char → Bool
  | [], pat => listStartsWith [] pat
  | c :: t, pat => listStartsWith (c :: t) pat || listContainsSub t pat

/-- String-level wrapper for JS `s.includes(pat)`. -/
def strIncludes (s pat : String) : Bool :=
  listContainsSub s.data pat.data

/-- JS `s.toLowerCase()` (on ASCII, where it and SQLite `LOWER` agree). -/
def lowerStr (s : String) : String :=
  String.mk (s.data.map Char.toLower)

namespace AIService

/-- Cell `matrix[i][j]` of the dynamic program in `levenshteinDistance`
(`aiService.js` lines 252–278): `matrix[i]` is indexed by prefixes of
`str2`, `matrix[..][j]` by prefixes of `str1`; the character comparison of
the source is `str2.charAt(i-1) === str1.charAt(j-1)`, which at pattern
`(i+1, j+1)` reads positions `i` of `str2` and `j` of `str1`.  The `getD`
default is never read for the in-range cells the top-level call visits. -/
def levCellRow (s1 s2 : List Char) (prev : Nat → Nat) (i : Nat) : Nat → Nat
  | 0 => i + 1
  | j + 1 =>
    if s2.getD i 'a' = s1.getD j 'a' then prev j
    else
      Nat.min (prev j + 1)
        (Nat.min (levCellRow s1 s2 prev i j + 1) (prev (j + 1) + 1))

def levCell (s1 s2 : List Char) : Nat → Nat → Nat
  | 0 => fun j => j
  | i + 1 => levCellRow s1 s2 (levCell s1 s2 i) i

/-- `levenshteinDistance(str1, str2)` returns `matrix[str2.length][str1.length]`. -/
def levenshteinDistance (str1 str2 : String) : Nat :=
  levCell str1.data str2.data str2.length str1.length

/-- `calculateSimilarity` (`aiService.js` lines 239–247): picks the longer
string (ties go to `str2`), returns `1.0` when it is empty, otherwise
`(longer.length - editDistance) / longer.length` (expressed as the exact
rational `mkRat`, shown below to equal the division formula). -/
def calculateSimilarity (str1 str2 : String) : ℚ :=
  let longer := if str1.length > str2.length then str1 else str2
  let shorter := if str1.length > str2.length then str2 else str1
  if longer.length = 0 then 1
  else mkRat ((longer.length : Int) - levenshteinDistance longer shorter) longer.length

/-- One element of `conversationCache.get(groupId)` (`aiService.js` 200–204):
the query is stored lowercased, with the answer and a creation timestamp. -/
structure CacheItem where
  query : String
  response : String
  timestamp : Int
deriving DecidableEq

/-- `cacheResponse` (`aiService.js` 194–210): append the lowercased query,
then drop the oldest entry once the length exceeds 50. -/
def cacheResponse (cache : List CacheItem) (query response : String) (now : Int) :
    List CacheItem :=
  let c := cache ++ [{ query := lowerStr query, response := response, timestamp := now }]
  if c.length > 50 then c.drop 1 else c

/-- `getCachedResponse` (`aiService.js` 215–234): lowercase the query, take
the FIRST entry whose similarity exceeds 0.8, and only then test that single
entry for freshness (age under 3600000 ms).  A group with no cache behaves
as the empty list. -/
def getCachedResponse (cache : List CacheItem) (query : String) (now : Int) :
    Option String :=
  let normalizedQuery := lowerStr query
  match cache.find? (fun item =>
      decide (calculateSimilarity item.query normalizedQuery > mkRat 4 5)) with
  | some m => if now - m.timestamp < 3600000 then some m.response else none
  | none => none

/-- Modelled from the spec wording of claim C4 (for comparison with
`getCachedResponse`): return the answer of the first entry in insertion
order satisfying BOTH the similarity bound and the freshness bound. -/
def getCachedResponseClaimed (cache : List CacheItem) (query : String) (now : Int) :
    Option String :=
  (cache.find? (fun item =>
      decide (calculateSimilarity item.query (lowerStr query) > mkRat 4 5) &&
      decide (now - item.timestamp < 3600000))).map (fun m => m.response)

/-- Outcome of the axios call in `getResponse` (`aiService.js` 23–29): either
the promise resolves with a body (`ok`, carrying the truthiness of
`response.data`, of `response.data.success`, and `response.data.result`), or
it rejects (timeout, network failure, HTTP error status) and the `catch`
branch runs (`err`). -/
inductive ApiOutcome where
  | ok (hasData success : Bool) (result : Option String)
  | err
deriving DecidableEq

/-- JS truthiness of `response.data.result`: present and non-empty. -/
def resultTruthy : Option String → Bool
  | none => false
  | some s => !s.data.isEmpty

/-- The fixed fallback list of `getFallbackResponse` (`aiService.js` 283–292). -/
def fallbacks : List String :=
  ["I'm having trouble connecting to my AI service right now. Please try again in a moment.",
   "Hmm, I couldn't process that right now. Could you rephrase your question?",
   "I'm experiencing some technical difficulties. An admin will help you shortly!",
   "Sorry, I couldn't understand that. Could you ask in a different way?"]

/-- `getFallbackResponse`: a random element of `fallbacks`; the call to
`Math.random` is modelled by the caller-supplied natural `r`. -/
def getFallbackResponse (r : Nat) : String :=
  fallbacks.getD (r % fallbacks.length) ""

/-- `getResponse` (`aiService.js` 13–47) on the path used by the group
pipeline (no `groupId` is ever passed there, so the response-caching branch
is inert): a resolved call returns `result` when the
`data && data.success && data.result` guard passes and `null` (here `none`)
otherwise; a rejected call is caught and answered with a fallback message. -/
def getResponse (outcome : ApiOutcome) (r : Nat) : Option String :=
  match outcome with
  | ApiOutcome.ok hasData success result =>
    if hasData && success && resultTruthy result then result else none
  | ApiOutcome.err => some (getFallbackResponse r)

/-- Models `if (aiResponse) { ...sendMessage... }` in `generateAIResponse`:
the reply actually sent to the chat, `none` when nothing is sent. -/
def sendIfTruthy (resp : Option String) : Option String :=
  match resp with
  | some s => if s.data.isEmpty then none else some s
  | none => none

end AIService

namespace Database

/-- A row of the `learned_responses` table (`database.js` 71–84). -/
structure LearnedEntry where
  id : Nat
  group_id : Int
  question : String
  answer : String
  confidence : ℚ
  learned_from : String
  usage_count : Nat
  last_used : Option Int
  created_at : Int
deriving DecidableEq

/-- The WHERE clause `group_id = ? AND LOWER(question) = LOWER(?)` shared by
`addLearnedResponse` and the exact phase of `findLearnedResponse`.  SQLite
`LOWER` folds ASCII only, matching `String.toLower`. -/
def keyMatch (g : Int) (q : String) (e : LearnedEntry) : Bool :=
  e.group_id == g && lowerStr e.question == lowerStr q

/-- The `learned_responses` table together with its AUTOINCREMENT counter. -/
structure KnowledgeTable where
  rows : List LearnedEntry
  nextId : Nat
deriving DecidableEq

/-- The empty table, as created by `createTables`. -/
def emptyTable : KnowledgeTable := { rows := [], nextId := 1 }

/-- `addLearnedResponse` (`database.js` 276–300): if a row of the group with
the same lowercased question exists, UPDATE its answer, confidence (to 1.0)
and `learned_from`; otherwise INSERT a fresh row with the schema defaults
(`confidence` 1.0, `usage_count` 0, `last_used` NULL, `created_at` now). -/
def addLearnedResponse (t : KnowledgeTable) (g : Int)
    (question answer source : String) (now : Int) : KnowledgeTable :=
  match t.rows.find? (keyMatch g question) with
  | some found =>
    { t with rows := t.rows.map fun e =>
        if e.id == found.id then
          { e with answer := answer, confidence := 1, learned_from := source }
        else e }
  | none =>
    let fresh : LearnedEntry :=
      { id := t.nextId
        group_id := g
        question := question
        answer := answer
        confidence := 1
        learned_from := source
        usage_count := 0
        last_used := none
        created_at := now }
    { rows := t.rows ++ [fresh]
      nextId := t.nextId + 1 }

/-- `ORDER BY confidence DESC LIMIT 1` over a result list: the row with the
greatest confidence, earliest row winning ties (SQLite leaves tie order
unspecified; table order is the model chosen here). -/
def argmaxConf : List LearnedEntry → Option LearnedEntry
  | [] => none
  | e :: rest =>
    match argmaxConf rest with
    | none => some e
    | some m => if m.confidence > e.confidence then some m else some e

/-- `findLearnedResponse` (`database.js` 302–323): an exact lowercased match
with confidence above 0.5 first; failing that, among rows of the group whose
lowercased question is a substring of the lowercased query (the SQL
`LOWER(?) LIKE '%' || LOWER(question) || '%'` with wildcard-free questions)
and whose confidence is above 0.5, the one of highest confidence. -/
def findLearnedResponse (t : KnowledgeTable) (g : Int) (question : String) :
    Option LearnedEntry :=
  match t.rows.find? (fun e =>
      keyMatch g question e && decide (e.confidence > mkRat 1 2)) with
  | some r => some r
  | none =>
    argmaxConf (t.rows.filter (fun e =>
      e.group_id == g && strIncludes (lowerStr question) (lowerStr e.question) &&
      decide (e.confidence > mkRat 1 2)))

/-- One `teach` invocation: the arguments of `addLearnedResponse`. -/
structure TeachOp where
  group : Int
  question : String
  answer : String
  source : String
  now : Int

/-- A sequence of teach operations applied to the empty table. -/
def teachFold (ops : List TeachOp) : KnowledgeTable :=
  ops.foldl (fun t o => addLearnedResponse t o.group o.question o.answer o.source o.now)
    emptyTable

/-- Number of rows of a given (group, lowercased question) key. -/
def keyCount (rows : List LearnedEntry) (g : Int) (q : String) : Nat :=
  rows.countP (keyMatch g q)

/-- No two rows share a (group, lowercased question) key. -/
def distinctKeys (rows : List LearnedEntry) : Prop :=
  rows.Pairwise (fun e1 e2 =>
    e1.group_id ≠ e2.group_id ∨ lowerStr e1.question ≠ lowerStr e2.question)

/-- Structural invariant of the table: distinct ids, ids below the
AUTOINCREMENT counter, and key uniqueness. -/
def wellFormed (t : KnowledgeTable) : Prop :=
  (t.rows.map (fun e => e.id)).Nodup ∧ (∀ e ∈ t.rows, e.id < t.nextId) ∧
    distinctKeys t.rows

/-- A row of the `messages` table. -/
structure MessageRow where
  group_id : Int
  user_id : Int
  content : String
  message_id : Int
deriving DecidableEq

/-- A row of the `interactions` table (feedback: 0 unset, 1 good, -1 bad). -/
structure InteractionRow where
  group_id : Int
  question : String
  answer : String
  source : String
  question_msg_id : Int
  answer_msg_id : Int
  feedback : Int
deriving DecidableEq

/-- A row of the `user_stats` table. -/
structure UserStatRow where
  group_id : Int
  user_id : Int
  message_count : Nat
deriving DecidableEq

/-- A row of the `keywords` table. -/
structure KeywordRow where
  group_id : Int
  keyword : String
  frequency : Nat
deriving DecidableEq

/-- The tables read by `getGroupStats`. -/
structure DbTables where
  messages : List MessageRow
  interactions : List InteractionRow
  learned : List LearnedEntry
  userStats : List UserStatRow
  keywords : List KeywordRow
deriving DecidableEq

/-- The record returned by `getGroupStats` (`database.js` 426–433). -/
structure GroupStats where
  totalMessages : Nat
  botResponses : Nat
  learnedResponses : Nat
  activeUsers : Nat
  accuracy : Int
  topTopics : List (String × Nat)
deriving DecidableEq

/-- The record returned by the `catch` branch of `getGroupStats`. -/
def zeroStats : GroupStats :=
  { totalMessages := 0
    botResponses := 0
    learnedResponses := 0
    activeUsers := 0
    accuracy := 0
    topTopics := [] }

/-- Insertion step of the `ORDER BY frequency DESC` model. -/
def insertByFreq (k : KeywordRow) : List KeywordRow → List KeywordRow
  | [] => [k]
  | x :: xs => if x.frequency < k.frequency then k :: x :: xs else x :: insertByFreq k xs

/-- Stable sort by decreasing frequency (SQLite leaves tie order
unspecified; table order is the model chosen here). -/
def sortByFreqDesc (l : List KeywordRow) : List KeywordRow :=
  l.foldr insertByFreq []

/-- `getGroupStats` (`database.js` 385–445): the per-group aggregate counts;
`accuracy` guards its division behind `totalFeedback.count > 0`
(`Math.round` on a non-negative rational is `round`); any thrown persistence
error is caught and answered with the all-zero record (`failure` models
whether any of the reads threw). -/
def getGroupStats (db : DbTables) (g : Int) (failure : Bool) : GroupStats :=
  if failure then zeroStats
  else
    let goodFeedback := (db.interactions.filter
      (fun r => r.group_id == g && r.feedback == 1)).length
    let totalFeedback := (db.interactions.filter
      (fun r => r.group_id == g && r.feedback != 0)).length
    { totalMessages := (db.messages.filter (fun m => m.group_id == g)).length
      botResponses := (db.interactions.filter (fun r => r.group_id == g)).length
      learnedResponses := (db.learned.filter (fun e => e.group_id == g)).length
      activeUsers := (((db.userStats.filter (fun u => u.group_id == g)).map
        (fun u => u.user_id)).eraseDups).length
      accuracy := if totalFeedback > 0 then
          round (((goodFeedback : ℚ) / totalFeedback) * 100)
        else 0
      topTopics := ((sortByFreqDesc (db.keywords.filter
        (fun k => k.group_id == g))).take 5).map (fun k => (k.keyword, k.frequency)) }

/-- A row of the durable `setup_states` table (`database.js` 45–55); the
JSON `data` column is modelled structurally. -/
structure SetupDataJson where
  purpose : Option String := none
  tone : Option String := none
  rules : Option (List String) := none
  triggers : Option (List String) := none
deriving DecidableEq

structure SetupStateRow where
  user_id : Int
  group_id : Int
  step : String
  data : SetupDataJson
deriving DecidableEq

/-- `saveSetupState` (`database.js` 139–150): upsert on `user_id`. -/
def saveSetupState (table : List SetupStateRow) (userId groupId : Int)
    (step : String) (data : SetupDataJson) : List SetupStateRow :=
  if table.any (fun row => row.user_id == userId) then
    table.map fun row =>
      if row.user_id == userId then
        { row with group_id := groupId, step := step, data := data }
      else row
  else
    table ++ [{ user_id := userId
                group_id := groupId
                step := step
                data := data }]

end Database

namespace Bot

/-- The collaborators that a run of the group-message pipeline consults, in
order: the KnowledgeStore lookup (`db.findLearnedResponse`), a ResponseCache
lookup (`ai.getCachedResponse`), the external completion call (the axios
request inside `ai.getResponse`). -/
inductive PipelineStep where
  | knowledgeLookup
  | cacheGet
  | externalCall
deriving DecidableEq

/-- Where a sent reply came from. -/
inductive ReplySource where
  | learned (id : Nat)
  | ai
deriving DecidableEq

/-- The post-trigger part of `handleGroupMessage` composed with
`generateAIResponse` (`bot.js` 301–316 and 349–384; the second revision at
876–921 and 943–980 is identical in this respect): look up a learned
response; reply with its answer when its confidence exceeds 0.7; otherwise
call the external completion service and send its (truthy) reply.  The
returned trace lists the consulted collaborators in order; no call to
`ai.getCachedResponse` occurs anywhere in either revision. -/
def respondPipeline (t : Database.KnowledgeTable) (g : Int) (text : String)
    (outcome : AIService.ApiOutcome) (r : Nat) :
    List PipelineStep × Option (ReplySource × String) :=
  match Database.findLearnedResponse t g text with
  | some e =>
    if e.confidence > mkRat 7 10 then
      ([PipelineStep.knowledgeLookup], some (ReplySource.learned e.id, e.answer))
    else
      ([PipelineStep.knowledgeLookup, PipelineStep.externalCall],
        (AIService.sendIfTruthy (AIService.getResponse outcome r)).map
          (fun s => (ReplySource.ai, s)))
  | none =>
    ([PipelineStep.knowledgeLookup, PipelineStep.externalCall],
      (AIService.sendIfTruthy (AIService.getResponse outcome r)).map
        (fun s => (ReplySource.ai, s)))

end Bot

namespace BotV1

/-- `shouldRespond` of the first bot revision (`bot.js` 318–347).  The
mention test runs on the raw text, the rest on the lowercased text; a null
`group.triggers` is `none`.  The error path of the source (`getMe` failing)
is outside this model. -/
def shouldRespond (botUsername mtext : String) (replyFromIsBot : Option Bool)
    (triggers : Option (List String)) : Bool :=
  let text := lowerStr mtext
  if strIncludes mtext ("@" ++ botUsername) then true
  else if replyFromIsBot.getD false then true
  else if (match triggers with
      | some ts => ts.contains "all"
      | none => false) && strIncludes text "?" then true
  else
    match triggers with
    | some ts => ts.any (fun trigger => strIncludes text (lowerStr trigger))
    | none => false

end BotV1

namespace BotV2

/-- `shouldRespond` of the second bot revision (`bot.js` 923–941):
`triggers` containing the `"all"` sentinel answers every message, and a
question mark answers regardless of the configured triggers. -/
def shouldRespond (botUsername mtext : String) (replyFromIsBot : Option Bool)
    (triggers : List String) : Bool :=
  let text := lowerStr mtext
  if strIncludes mtext ("@" ++ botUsername) then true
  else if replyFromIsBot.getD false then true
  else if triggers.contains "all" then true
  else if strIncludes text "?" then true
  else triggers.any (fun trigger => strIncludes text (lowerStr trigger))

/-- The setup step strings of `handleSetupFlow` (`bot.js` 806–874). -/
inductive SetupStep where
  | purpose
  | tone
  | rules
  | triggers
deriving DecidableEq

/-- The `data` object accumulated by a setup session. -/
structure SetupData where
  purpose : Option String := none
  tone : Option String := none
  rules : Option (List String) := none
  triggers : Option (List String) := none
deriving DecidableEq

/-- One value of the in-memory `this.setupStates` Map (`bot.js` 772–776). -/
structure SetupSession where
  step : SetupStep
  groupId : Int
  data : SetupData
deriving DecidableEq

/-- A row of the `groups` table as read and written by the bot. -/
structure GroupRow where
  group_id : Int
  group_name : String
  purpose : Option String
  tone : Option String
  rules : Option (List String)
  triggers : Option (List String)
  setup_complete : Bool
  paused : Bool
deriving DecidableEq

/-- The state touched by the setup flow: the in-memory session Map, the
durable `setup_states` table, and the durable `groups` table. -/
structure BotState where
  setupStates : List (Int × SetupSession)
  dbSetupStates : List Database.SetupStateRow
  dbGroups : List GroupRow
deriving DecidableEq

def lookupSession (m : List (Int × SetupSession)) (userId : Int) :
    Option SetupSession :=
  (m.find? (fun p => p.1 == userId)).map (fun p => p.2)

/-- `Map.set`: replace the entry of the key, or append it. -/
def putSession (m : List (Int × SetupSession)) (userId : Int) (s : SetupSession) :
    List (Int × SetupSession) :=
  if m.any (fun p => p.1 == userId) then
    m.map (fun p => if p.1 == userId then (p.1, s) else p)
  else m ++ [(userId, s)]

/-- `Map.delete`. -/
def removeSession (m : List (Int × SetupSession)) (userId : Int) :
    List (Int × SetupSession) :=
  m.filter (fun p => !(p.1 == userId))

/-- JS `text.split(',').map(r => r.trim())` — empties are NOT dropped. -/
def splitTrim (text : String) : List String :=
  (text.splitOn ",").map (fun r => r.trim)

/-- `updateGroupConfig` (`database.js` 214–230): UPDATE of the group row
with the accumulated config, setting `setup_complete = 1`. -/
def updateGroupConfig (groups : List GroupRow) (g : Int) (d : SetupData) :
    List GroupRow :=
  groups.map fun row =>
    if row.group_id == g then
      { row with
        purpose := d.purpose
        tone := d.tone
        rules := d.rules
        triggers := d.triggers
        setup_complete := true }
    else row

/-- The `setup_` branch of `handleCallbackQuery` (`bot.js` 770–776): store a
fresh session at step `purpose` in the in-memory Map. -/
def startSetup (st : BotState) (userId groupId : Int) : BotState :=
  let s : SetupSession := { step := SetupStep.purpose, groupId := groupId, data := {} }
  { st with setupStates := putSession st.setupStates userId s }

/-- `handleSetupFlow` (`bot.js` 806–874): advance the session of `userId`
one step on the free-text reply `text`.  Every branch mutates only the
in-memory Map; the final (`triggers`) branch additionally commits the
accumulated config into the `groups` table and deletes the session.  No
branch writes the durable `setup_states` table. -/
def handleSetupFlow (st : BotState) (userId : Int) (text : String) : BotState :=
  match lookupSession st.setupStates userId with
  | none => st
  | some s =>
    match s.step with
    | SetupStep.purpose =>
      let s2 := { s with step := SetupStep.tone, data := { s.data with purpose := some text } }
      { st with setupStates := putSession st.setupStates userId s2 }
    | SetupStep.tone =>
      let s2 := { s with step := SetupStep.rules, data := { s.data with tone := some text } }
      { st with setupStates := putSession st.setupStates userId s2 }
    | SetupStep.rules =>
      let rules := if lowerStr text != "none" then splitTrim text else []
      let s2 := { s with step := SetupStep.triggers, data := { s.data with rules := some rules } }
      { st with setupStates := putSession st.setupStates userId s2 }
    | SetupStep.triggers =>
      let trigs := if lowerStr text == "all" then ["all"] else splitTrim text
      let d := { s.data with triggers := some trigs }
      { st with
        dbGroups := updateGroupConfig st.dbGroups s.groupId d
        setupStates := removeSession st.setupStates userId }

end BotV2

/-! ## Theorems -/

namespace AIService

theorem levCell_zero (s1 s2 : List Char) (j : Nat) : levCell s1 s2 0 j = j := rfl

theorem levCell_succ_zero (s1 s2 : List Char) (i : Nat) :
    levCell s1 s2 (i + 1) 0 = i + 1 := rfl

theorem levCell_succ_succ (s1 s2 : List Char) (i j : Nat) :
    levCell s1 s2 (i + 1) (j + 1) =
      if s2.getD i 'a' = s1.getD j 'a' then levCell s1 s2 i j
      else
        Nat.min (levCell s1 s2 i j + 1)
          (Nat.min (levCell s1 s2 (i + 1) j + 1) (levCell s1 s2 i (j + 1) + 1)) := rfl

theorem levCell_symm_aux (s1 s2 : List Char) :
    ∀ n i j, i + j ≤ n → levCell s1 s2 i j = levCell s2 s1 j i := by
  intro n
  induction n with
  | zero =>
    intro i j h
    have hi : i = 0 := by omega
    have hj : j = 0 := by omega
    subst hi; subst hj
    rfl
  | succ n ih =>
    intro i j h
    match i, j with
    | 0, 0 => rfl
    | 0, j + 1 => rfl
    | i + 1, 0 => rfl
    | i + 1, j + 1 =>
      have h1 := ih i j (by omega)
      have h2 := ih (i + 1) j (by omega)
      have h3 := ih i (j + 1) (by omega)
      by_cases hc : s2.getD i 'a' = s1.getD j 'a'
      · rw [levCell_succ_succ, levCell_succ_succ, if_pos hc, if_pos hc.symm, h1]
      · rw [levCell_succ_succ, levCell_succ_succ, if_neg hc,
          if_neg (fun hcs => hc hcs.symm), h1, h2, h3]
        simp only [Nat.min_def]
        split_ifs <;> omega

theorem levCell_symm (s1 s2 : List Char) (i j : Nat) :
    levCell s1 s2 i j = levCell s2 s1 j i :=
  levCell_symm_aux s1 s2 (i + j) i j le_rfl

theorem levenshteinDistance_symm (a b : String) :
    levenshteinDistance a b = levenshteinDistance b a := by
  unfold levenshteinDistance
  exact levCell_symm a.data b.data b.length a.length

theorem levCell_self (s : List Char) : ∀ i, levCell s s i i = 0 := by
  intro i
  induction i with
  | zero => rfl
  | succ i ih => rw [levCell_succ_succ, if_pos rfl, ih]

theorem levenshteinDistance_self (a : String) : levenshteinDistance a a = 0 := by
  unfold levenshteinDistance
  exact levCell_self a.data a.length

theorem calculateSimilarity_eq (a b : String) :
    calculateSimilarity a b =
      1 - (levenshteinDistance a b : ℚ) / (max a.length b.length) := by
  unfold calculateSimilarity
  by_cases hab : a.length > b.length
  · have hL : a.length ≠ 0 := by omega
    have hmax : max a.length b.length = a.length := Nat.max_eq_left (Nat.le_of_lt hab)
    have hQ : (a.length : ℚ) ≠ 0 := by exact_mod_cast hL
    simp only [hab, if_true, hmax, if_neg hL]
    rw [Rat.mkRat_eq_div]
    push_cast
    rw [sub_div, div_self hQ]
  · have hmax : max a.length b.length = b.length := Nat.max_eq_right (Nat.le_of_not_lt hab)
    by_cases hb : b.length = 0
    · have ha : a.length = 0 := by omega
      have hlev : levenshteinDistance a b = 0 := by
        unfold levenshteinDistance
        rw [hb, ha]
        rfl
      rw [if_neg hab, if_neg hab, if_pos hb, hlev, hmax, hb]
      simp
    · have hQ : (b.length : ℚ) ≠ 0 := by exact_mod_cast hb
      simp only [hab, if_false, hmax, if_neg hb]
      rw [levenshteinDistance_symm b a, Rat.mkRat_eq_div]
      push_cast
      rw [sub_div, div_self hQ]

theorem calculateSimilarity_symm (a b : String) :
    calculateSimilarity a b = calculateSimilarity b a := by
  rw [calculateSimilarity_eq, calculateSimilarity_eq, levenshteinDistance_symm,
    Nat.max_comm]

theorem calculateSimilarity_self (a : String) : calculateSimilarity a a = 1 := by
  rw [calculateSimilarity_eq, levenshteinDistance_self]
  simp

end AIService

/-- C8: `calculateSimilarity a b` equals `1 − levenshtein(a,b) / max(len a, len b)`
(the division-by-zero convention of ℚ makes the formula also cover the
two-empty-strings case, where the code returns 1.0); similarity is symmetric
and `similarity(a,a) = 1.0` for every `a`, in particular for `a = ""`. -/
theorem C8_similarity_formula (a b : String) :
    AIService.calculateSimilarity a b =
        1 - (AIService.levenshteinDistance a b : ℚ) / (max a.length b.length)
      ∧ AIService.calculateSimilarity "" "" = 1
      ∧ AIService.calculateSimilarity a b = AIService.calculateSimilarity b a
      ∧ AIService.calculateSimilarity a a = 1 :=
  ⟨AIService.calculateSimilarity_eq a b, AIService.calculateSimilarity_self "",
    AIService.calculateSimilarity_symm a b, AIService.calculateSimilarity_self a⟩

/-- C4 counterexample: with two cached entries both textually identical to
the query, the first one stale (age over an hour) and the second one fresh,
`getCachedResponse` returns `none`, while the spec-described behaviour
(first entry satisfying BOTH similarity and freshness, embodied by
`getCachedResponseClaimed`) returns the fresh answer; the last two
conjuncts exhibit that the second entry does satisfy both conditions. -/
theorem C4_counterexample :
    AIService.getCachedResponse
        [{ query := "hi", response := "old", timestamp := 0 },
         { query := "hi", response := "new", timestamp := 3900000 }] "hi" 4000000 = none
      ∧ AIService.getCachedResponseClaimed
        [{ query := "hi", response := "old", timestamp := 0 },
         { query := "hi", response := "new", timestamp := 3900000 }] "hi" 4000000
          = some "new"
      ∧ AIService.calculateSimilarity "hi" "hi" > mkRat 4 5
      ∧ (4000000 : Int) - 3900000 < 3600000 := by
  decide

/-- C4 amended: `getCachedResponse` case-folds the query and selects the
FIRST entry in insertion order whose similarity exceeds 0.8, by similarity
alone; it returns that entry's answer exactly when that single entry is
under an hour old, and `none` otherwise — entries after the first
similarity match are never considered. -/
theorem C4_cache_get_behaviour (cache : List AIService.CacheItem) (query : String)
    (now : Int) (ans : String) :
    AIService.getCachedResponse cache query now = some ans ↔
      ∃ m, cache.find? (fun item =>
            decide (AIService.calculateSimilarity item.query (lowerStr query)
              > mkRat 4 5)) = some m
          ∧ now - m.timestamp < 3600000 ∧ ans = m.response := by
  simp only [AIService.getCachedResponse]
  cases hf : cache.find? (fun item =>
      decide (AIService.calculateSimilarity item.query (lowerStr query) > mkRat 4 5)) with
  | none => simp [hf]
  | some m =>
    simp only [hf]
    by_cases ht : now - m.timestamp < 3600000
    · simp [ht, eq_comm]
    · simp [ht]

/-- C5 counterexample: a resolved completion response with the wrong shape
(`success` false) makes `getResponse` return `null`, NOT the fallback
apology a thrown error (timeout) produces, and the pipeline then sends no
reply at all — so a malformed boundary response is not treated identically
to a timeout, and an absent reply does surface to the chat. -/
theorem C5_counterexample :
    AIService.getResponse (AIService.ApiOutcome.ok true false none) 0 = none
      ∧ AIService.getResponse AIService.ApiOutcome.err 0
          = some (AIService.getFallbackResponse 0)
      ∧ AIService.getResponse (AIService.ApiOutcome.ok true false none) 0
          ≠ AIService.getResponse AIService.ApiOutcome.err 0
      ∧ AIService.sendIfTruthy
          (AIService.getResponse (AIService.ApiOutcome.ok true false none) 0) = none := by
  decide

/-- C5 amended: whenever the resolved response fails the
`data && data.success && data.result` guard, `getResponse` returns `none`
and no reply is sent; only a thrown boundary error (the `catch` branch) is
recovered with a fallback apology drawn from the fixed list. -/
theorem C5_malformed_returns_null (hasData success : Bool) (result : Option String)
    (r : Nat) (h : (hasData && success && AIService.resultTruthy result) = false) :
    AIService.getResponse (AIService.ApiOutcome.ok hasData success result) r = none
      ∧ AIService.sendIfTruthy
          (AIService.getResponse (AIService.ApiOutcome.ok hasData success result) r) = none
      ∧ AIService.getResponse AIService.ApiOutcome.err r
          = some (AIService.getFallbackResponse r)
      ∧ AIService.getFallbackResponse r ∈ AIService.fallbacks := by
  refine ⟨?_, ?_, rfl, ?_⟩
  · simp [AIService.getResponse, h]
  · simp [AIService.getResponse, h, AIService.sendIfTruthy]
  · have h4 : AIService.fallbacks.length = 4 := rfl
    unfold AIService.getFallbackResponse
    rw [h4]
    have hlt : r % 4 < 4 := Nat.mod_lt _ (by norm_num)
    set k := r % 4 with hk
    interval_cases k <;> decide

theorem C5_malformed_returns_null_witness :
    AIService.getResponse (AIService.ApiOutcome.ok true true (some "")) 3 = none
      ∧ AIService.getFallbackResponse 3 ∈ AIService.fallbacks :=
  ⟨(C5_malformed_returns_null true true (some "") 3 (by decide)).1,
   (C5_malformed_returns_null true true (some "") 3 (by decide)).2.2.2⟩

/-- C3 counterexample: on a message whose knowledge lookup fails, the
pipeline goes straight from the KnowledgeStore lookup to the external
completion call; no ResponseCache consultation occurs in between (or
anywhere), contradicting the claim that the cache is consulted as a
fallback before the external service. -/
theorem C3_counterexample :
    (Bot.respondPipeline Database.emptyTable 0 "hi" AIService.ApiOutcome.err 0).1
        = [Bot.PipelineStep.knowledgeLookup, Bot.PipelineStep.externalCall]
      ∧ Bot.PipelineStep.cacheGet ∉
          (Bot.respondPipeline Database.emptyTable 0 "hi" AIService.ApiOutcome.err 0).1 := by
  decide

/-- C3 amended: the group-message pipeline never consults the ResponseCache
at any point: on a failed or untrusted knowledge retrieval it invokes the
external completion service directly (`getCachedResponse` exists in the
service layer but is never called). -/
theorem C3_cache_never_consulted (t : Database.KnowledgeTable) (g : Int)
    (text : String) (outcome : AIService.ApiOutcome) (r : Nat) :
    Bot.PipelineStep.cacheGet ∉ (Bot.respondPipeline t g text outcome r).1 := by
  unfold Bot.respondPipeline
  cases hf : Database.findLearnedResponse t g text with
  | none => simp
  | some e =>
    by_cases h : e.confidence > mkRat 7 10 <;> simp [h]

/-- C2 counterexample: in revision 1, a group whose trigger set is exactly
`["all"]` answers the message "football" — no mention, no reply, no
question mark — because the sentinel `"all"` is also matched as an ordinary
substring keyword; revision 2 answers every message outright under the
sentinel.  Both contradict "respond iff the text contains a question
mark". -/
theorem C2_counterexample :
    BotV1.shouldRespond "MyBot" "football" none (some ["all"]) = true
      ∧ strIncludes (lowerStr "football") "?" = false
      ∧ strIncludes "football" ("@" ++ "MyBot") = false
      ∧ BotV2.shouldRespond "MyBot" "nice weather today" none ["all"] = true
      ∧ strIncludes (lowerStr "nice weather today") "?" = false := by
  decide

/-- C2 amended (for the revision-1 evaluator): with trigger set exactly
`["all"]` and neither escape hatch firing, it responds iff the lowercased
text contains a question mark OR the substring "all" (the sentinel doubles
as a literal keyword); and for any trigger set, when additionally the
all-sentinel question-mark rule does not fire and no configured keyword
occurs in the text, it does not respond. -/
theorem C2_trigger_evaluation (botUsername mtext : String) (replyFromIsBot : Option Bool)
    (hmention : strIncludes mtext ("@" ++ botUsername) = false)
    (hreply : replyFromIsBot.getD false = false) :
    (BotV1.shouldRespond botUsername mtext replyFromIsBot (some ["all"])
        = (strIncludes (lowerStr mtext) "?" || strIncludes (lowerStr mtext) "all"))
      ∧ ∀ ts : List String,
          (ts.contains "all" && strIncludes (lowerStr mtext) "?") = false →
          (∀ trigger ∈ ts, strIncludes (lowerStr mtext) (lowerStr trigger) = false) →
          BotV1.shouldRespond botUsername mtext replyFromIsBot (some ts) = false := by
  have hall : lowerStr "all" = "all" := by decide
  constructor
  · by_cases hq : strIncludes (lowerStr mtext) "?" = true
    · simp [BotV1.shouldRespond, hmention, hreply, hq]
    · simp only [Bool.not_eq_true] at hq
      simp [BotV1.shouldRespond, hmention, hreply, hq, hall]
  · intro ts h1 h2
    simp only [BotV1.shouldRespond, hmention, hreply, Bool.false_eq_true, if_false, h1]
    simp only [List.any_eq_false]
    intro trigger hmem
    simpa using h2 trigger hmem

theorem C2_trigger_evaluation_witness :
    BotV1.shouldRespond "MyBot" "hello there" none (some ["all"])
        = (strIncludes (lowerStr "hello there") "?"
            || strIncludes (lowerStr "hello there") "all")
      ∧ BotV1.shouldRespond "MyBot" "hello there" none (some ["help"]) = false :=
  ⟨(C2_trigger_evaluation "MyBot" "hello there" none (by decide) (by decide)).1,
   (C2_trigger_evaluation "MyBot" "hello there" none (by decide) (by decide)).2
     ["help"] (by decide) (by decide)⟩

/-- C1: when the knowledge lookup of the pipeline retrieves an entry, its
answer is sent as the learned auto-reply exactly when its confidence
exceeds 0.7; an entry with confidence at most 0.7 (including the whole
retrievable band above 0.5) is never sent as the learned auto-reply — the
pipeline falls through to the external service instead. -/
theorem C1_trust_threshold (t : Database.KnowledgeTable) (g : Int) (text : String)
    (outcome : AIService.ApiOutcome) (r : Nat) (e : Database.LearnedEntry)
    (hfind : Database.findLearnedResponse t g text = some e) :
    (e.confidence > mkRat 7 10 →
      (Bot.respondPipeline t g text outcome r).2
        = some (Bot.ReplySource.learned e.id, e.answer))
      ∧ (e.confidence ≤ mkRat 7 10 → ∀ i s,
          (Bot.respondPipeline t g text outcome r).2
            ≠ some (Bot.ReplySource.learned i, s)) := by
  constructor
  · intro h
    simp [Bot.respondPipeline, hfind, h]
  · intro h i s
    simp only [Bot.respondPipeline, hfind, if_neg (not_lt.mpr h)]
    cases hx : AIService.sendIfTruthy (AIService.getResponse outcome r) <;> simp [hx]

theorem C1_trust_threshold_witness :
    (Bot.respondPipeline
        { rows := [{ id := 1, group_id := 7, question := "What Time", answer := "noon",
                     confidence := mkRat 3 5, learned_from := "manual", usage_count := 2,
                     last_used := none, created_at := 0 }], nextId := 2 }
        7 "what time" AIService.ApiOutcome.err 0).2
      ≠ some (Bot.ReplySource.learned 1, "noon") :=
  (C1_trust_threshold
      { rows := [{ id := 1, group_id := 7, question := "What Time", answer := "noon",
                   confidence := mkRat 3 5, learned_from := "manual", usage_count := 2,
                   last_used := none, created_at := 0 }], nextId := 2 }
      7 "what time" AIService.ApiOutcome.err 0
      { id := 1, group_id := 7, question := "What Time", answer := "noon",
        confidence := mkRat 3 5, learned_from := "manual", usage_count := 2,
        last_used := none, created_at := 0 }
      (by decide)).2 (by decide) 1 "noon"

/-- C7: the claim that every setup transition persists the session durably
is false of the code — `handleSetupFlow` never writes the `setup_states`
table on any input (first conjunct); concretely, advancing a fresh session
of user 5 for group 99 from the `purpose` step with the reply
"Gaming community" moves the in-memory session to the `tone` step with the
purpose recorded, while the durable table stays empty (remaining
conjuncts).  The persistence layer's `saveSetupState` is never invoked. -/
theorem C7_setup_not_persisted :
    (∀ st userId text,
        (BotV2.handleSetupFlow st userId text).dbSetupStates = st.dbSetupStates)
      ∧ (BotV2.handleSetupFlow
          { setupStates := [(5, { step := BotV2.SetupStep.purpose, groupId := 99, data := {} })]
            dbSetupStates := []
            dbGroups := [] } 5 "Gaming community").dbSetupStates = []
      ∧ BotV2.lookupSession (BotV2.handleSetupFlow
          { setupStates := [(5, { step := BotV2.SetupStep.purpose, groupId := 99, data := {} })]
            dbSetupStates := []
            dbGroups := [] } 5 "Gaming community").setupStates 5
          = some { step := BotV2.SetupStep.tone, groupId := 99,
                   data := { purpose := some "Gaming community" } } := by
  refine ⟨?_, by decide, by decide⟩
  intro st userId text
  unfold BotV2.handleSetupFlow
  cases h : BotV2.lookupSession st.setupStates userId with
  | none => rfl
  | some s =>
    obtain ⟨step, groupId, data⟩ := s
    cases step <;> rfl

/-- C9: re-teaching an existing question updates, in place, only the
answer, confidence (to 1.0) and provenance of the matched entry; its id,
question, group, usage counter, creation timestamp and last-used timestamp
are untouched, every other row is untouched entirely, the table keeps its
length, and no AUTOINCREMENT id is consumed. -/
theorem C9_teach_frame (t : Database.KnowledgeTable) (g : Int)
    (question answer source : String) (now : Int) (found : Database.LearnedEntry)
    (hfind : t.rows.find? (Database.keyMatch g question) = some found) :
    (Database.addLearnedResponse t g question answer source now).nextId = t.nextId
      ∧ (Database.addLearnedResponse t g question answer source now).rows.length
          = t.rows.length
      ∧ ∀ e ∈ t.rows,
          ∃ e2 ∈ (Database.addLearnedResponse t g question answer source now).rows,
            e2.id = e.id ∧ e2.group_id = e.group_id ∧ e2.question = e.question
              ∧ e2.usage_count = e.usage_count ∧ e2.created_at = e.created_at
              ∧ e2.last_used = e.last_used
              ∧ (e.id ≠ found.id → e2 = e)
              ∧ (e.id = found.id →
                  e2.answer = answer ∧ e2.confidence = 1 ∧ e2.learned_from = source) := by
  have hrep : Database.addLearnedResponse t g question answer source now
      = { t with rows := t.rows.map (fun e =>
            if e.id == found.id then
              { e with answer := answer, confidence := 1, learned_from := source }
            else e) } := by
    unfold Database.addLearnedResponse
    rw [hfind]
  rw [hrep]
  refine ⟨rfl, by simp, ?_⟩
  intro e he
  refine ⟨_, List.mem_map_of_mem (fun e =>
      if e.id == found.id then
        { e with answer := answer, confidence := 1, learned_from := source }
      else e) he, ?_⟩
  by_cases hid : e.id = found.id
  · simp [hid]
  · have hne : (e.id == found.id) = false := by simp [hid]
    simp [hne, hid]

theorem C9_teach_frame_witness :
    (Database.addLearnedResponse
        { rows := [{ id := 1, group_id := 7, question := "Q1", answer := "A1",
                     confidence := mkRat 3 10, learned_from := "manual", usage_count := 4,
                     last_used := some 50, created_at := 10 }], nextId := 2 }
        7 "q1" "A2" "admin" 99).nextId = 2
      ∧ (Database.addLearnedResponse
        { rows := [{ id := 1, group_id := 7, question := "Q1", answer := "A1",
                     confidence := mkRat 3 10, learned_from := "manual", usage_count := 4,
                     last_used := some 50, created_at := 10 }], nextId := 2 }
        7 "q1" "A2" "admin" 99).rows.length = 1 :=
  ⟨(C9_teach_frame
      { rows := [{ id := 1, group_id := 7, question := "Q1", answer := "A1",
                   confidence := mkRat 3 10, learned_from := "manual", usage_count := 4,
                   last_used := some 50, created_at := 10 }], nextId := 2 }
      7 "q1" "A2" "admin" 99
      { id := 1, group_id := 7, question := "Q1", answer := "A1",
        confidence := mkRat 3 10, learned_from := "manual", usage_count := 4,
        last_used := some 50, created_at := 10 }
      (by decide)).1,
   (C9_teach_frame
      { rows := [{ id := 1, group_id := 7, question := "Q1", answer := "A1",
                   confidence := mkRat 3 10, learned_from := "manual", usage_count := 4,
                   last_used := some 50, created_at := 10 }], nextId := 2 }
      7 "q1" "A2" "admin" 99
      { id := 1, group_id := 7, question := "Q1", answer := "A1",
        confidence := mkRat 3 10, learned_from := "manual", usage_count := 4,
        last_used := some 50, created_at := 10 }
      (by decide)).2.1⟩

/-- C10: the statistics operation is total at its interface: with the
`failure` flag (the catch branch) it returns the well-formed all-zero
record, and with no feedback-bearing interactions for the group the
accuracy division is guarded and accuracy is reported as 0. -/
theorem C10_stats_total (db : Database.DbTables) (g : Int) :
    Database.getGroupStats db g true = Database.zeroStats
      ∧ ((db.interactions.filter
            (fun r => r.group_id == g && r.feedback != 0)).length = 0 →
          (Database.getGroupStats db g false).accuracy = 0) := by
  constructor
  · rfl
  · intro h
    simp [Database.getGroupStats, h]

theorem C10_stats_total_witness :
    Database.getGroupStats
        { messages := [], interactions := [], learned := [], userStats := [], keywords := [] }
        0 true = Database.zeroStats
      ∧ (Database.getGroupStats
          { messages := [], interactions := [], learned := [], userStats := [], keywords := [] }
          0 false).accuracy = 0 :=
  ⟨(C10_stats_total
      { messages := [], interactions := [], learned := [], userStats := [], keywords := [] }
      0).1,
   (C10_stats_total
      { messages := [], interactions := [], learned := [], userStats := [], keywords := [] }
      0).2 (by decide)⟩

namespace Database

theorem keyMatch_update (g : Int) (q : String) (answer source : String) (idSel : Nat)
    (e : LearnedEntry) :
    keyMatch g q (if e.id == idSel then
        { e with answer := answer, confidence := 1, learned_from := source }
      else e) = keyMatch g q e := by
  by_cases h : (e.id == idSel) = true <;> simp [h, keyMatch]

theorem countP_map_invariant (p : LearnedEntry → Bool) (f : LearnedEntry → LearnedEntry)
    (hf : ∀ e, p (f e) = p e) :
    ∀ rows : List LearnedEntry, (rows.map f).countP p = rows.countP p := by
  intro rows
  induction rows with
  | nil => rfl
  | cons e rest ih => simp [List.countP_cons, hf, ih]

theorem keyCount_le_one (g : Int) (q : String) :
    ∀ rows : List LearnedEntry, distinctKeys rows → keyCount rows g q ≤ 1 := by
  intro rows h
  induction rows with
  | nil => simp [keyCount]
  | cons e rest ih =>
    rcases List.pairwise_cons.mp h with ⟨hrel, hrest⟩
    unfold keyCount at ih ⊢
    rw [List.countP_cons]
    by_cases hp : keyMatch g q e = true
    · have hzero : rest.countP (keyMatch g q) = 0 := by
        rw [List.countP_eq_zero]
        intro x hx hpx
        simp only [keyMatch, Bool.and_eq_true, beq_iff_eq] at hp hpx
        rcases hrel x hx with h1 | h2
        · exact h1 (hp.1.trans hpx.1.symm)
        · exact h2 (hp.2.trans hpx.2.symm)
      simp [hp, hzero]
    · simp only [Bool.not_eq_true] at hp
      simp [hp]
      exact ih hrest

theorem distinctKeys_teach (t : KnowledgeTable) (g : Int) (q a source : String)
    (now : Int) (h : distinctKeys t.rows) :
    distinctKeys (addLearnedResponse t g q a source now).rows := by
  unfold addLearnedResponse
  cases hf : t.rows.find? (keyMatch g q) with
  | some found =>
    simp only
    unfold distinctKeys
    rw [List.pairwise_map]
    apply h.imp
    intro x y hxy
    have hx : (if x.id == found.id then
        { x with answer := a, confidence := 1, learned_from := source } else x).group_id
          = x.group_id ∧
        (if x.id == found.id then
          { x with answer := a, confidence := 1, learned_from := source } else x).question
          = x.question := by
      by_cases hb : (x.id == found.id) = true <;> simp [hb]
    have hy : (if y.id == found.id then
        { y with answer := a, confidence := 1, learned_from := source } else y).group_id
          = y.group_id ∧
        (if y.id == found.id then
          { y with answer := a, confidence := 1, learned_from := source } else y).question
          = y.question := by
      by_cases hb : (y.id == found.id) = true <;> simp [hb]
    rw [hx.1, hx.2, hy.1, hy.2]
    exact hxy
  | none =>
    simp only
    unfold distinctKeys
    rw [List.pairwise_append]
    refine ⟨h, List.pairwise_singleton _ _, ?_⟩
    intro x hx y hy
    have hyy : y =
        { id := t.nextId
          group_id := g
          question := q
          answer := a
          confidence := 1
          learned_from := source
          usage_count := 0
          last_used := none
          created_at := now } := by
      simpa using hy
    subst hyy
    have hnx := List.find?_eq_none.mp hf x hx
    simp only [keyMatch, Bool.and_eq_true, beq_iff_eq, not_and] at hnx
    by_cases hgx : x.group_id = g
    · right
      intro hq
      exact hnx hgx hq
    · left
      exact hgx

theorem distinctKeys_teachFold (ops : List TeachOp) :
    distinctKeys (teachFold ops).rows := by
  suffices hgen : ∀ (l : List TeachOp) (t : KnowledgeTable), distinctKeys t.rows →
      distinctKeys ((l.foldl (fun t o =>
        addLearnedResponse t o.group o.question o.answer o.source o.now) t).rows) by
    exact hgen ops emptyTable List.Pairwise.nil
  intro l
  induction l with
  | nil => intro t ht; simpa using ht
  | cons o rest ih =>
    intro t ht
    exact ih _ (distinctKeys_teach t o.group o.question o.answer o.source o.now ht)

end Database

/-- C6: (i) after any sequence of teach operations starting from the empty
table, at most one entry exists per (group, lowercased question) key;
(ii) teaching a question that already has an entry keeps the number of rows
unchanged (no duplicate is inserted) and leaves an entry carrying the
matched row's id and question with the new answer, confidence reset to 1.0
and the new provenance. -/
theorem C6_teach_upsert_unique :
    (∀ (ops : List Database.TeachOp) (g : Int) (q : String),
        Database.keyCount (Database.teachFold ops).rows g q ≤ 1)
      ∧ (∀ (t : Database.KnowledgeTable) (g : Int) (question answer source : String)
          (now : Int) (found : Database.LearnedEntry),
          t.rows.find? (Database.keyMatch g question) = some found →
          ((Database.addLearnedResponse t g question answer source now).rows.length
              = t.rows.length
            ∧ ∃ e2 ∈ (Database.addLearnedResponse t g question answer source now).rows,
                e2.id = found.id ∧ e2.question = found.question
                  ∧ e2.group_id = found.group_id ∧ e2.answer = answer
                  ∧ e2.confidence = 1 ∧ e2.learned_from = source)) := by
  constructor
  · intro ops g q
    exact Database.keyCount_le_one g q _ (Database.distinctKeys_teachFold ops)
  · intro t g question answer source now found hfind
    have hrep : Database.addLearnedResponse t g question answer source now
        = { t with rows := t.rows.map (fun e =>
              if e.id == found.id then
                { e with answer := answer, confidence := 1, learned_from := source }
              else e) } := by
      unfold Database.addLearnedResponse
      rw [hfind]
    rw [hrep]
    refine ⟨by simp, ?_⟩
    refine ⟨_, List.mem_map_of_mem (fun e =>
        if e.id == found.id then
          { e with answer := answer, confidence := 1, learned_from := source }
        else e) (List.mem_of_find?_eq_some hfind), ?_⟩
    simp

theorem C6_teach_upsert_unique_witness :
    Database.keyCount (Database.teachFold
        [{ group := 7, question := "Q1", answer := "A1", source := "manual", now := 10 },
         { group := 7, question := "q1", answer := "A2", source := "admin", now := 20 }]).rows
        7 "q1" ≤ 1
      ∧ (Database.addLearnedResponse
          { rows := [{ id := 1, group_id := 7, question := "Q1", answer := "A1",
                       confidence := mkRat 3 10, learned_from := "manual", usage_count := 4,
                       last_used := some 50, created_at := 10 }], nextId := 2 }
          7 "q1" "A2" "admin" 99).rows.length = 1 :=
  ⟨C6_teach_upsert_unique.1
      [{ group := 7, question := "Q1", answer := "A1", source := "manual", now := 10 },
       { group := 7, question := "q1", answer := "A2", source := "admin", now := 20 }] 7 "q1",
   (C6_teach_upsert_unique.2
      { rows := [{ id := 1, group_id := 7, question := "Q1", answer := "A1",
                   confidence := mkRat 3 10, learned_from := "manual", usage_count := 4,
                   last_used := some 50, created_at := 10 }], nextId := 2 }
      7 "q1" "A2" "admin" 99
      { id := 1, group_id := 7, question := "Q1", answer := "A1",
        confidence := mkRat 3 10, learned_from := "manual", usage_count := 4,
        last_used := some 50, created_at := 10 }
      (by decide)).1⟩
